import Mathlib

/-!
Verification of the SmartBill dashboard (src/e.py): a shallow embedding of the
credential store (`create_user`, `validate_user`), the per-session state
(`logged_in`, `username`, `last_prediction`, `logout`, the login button
handler), and the prediction block (model loading, bill-derived usage
estimate). SQLite rows become a list of records; Python string truthiness
and `str.strip()` are embedded explicitly; floats are modelled as rationals.
-/

namespace SmartBill

/-- Whitespace characters removed by Python `str.strip()` in the ASCII range:
space, tab, line feed, carriage return, vertical tab, form feed. -/
def isSpaceChar (c : Char) : Bool :=
  c = ' ' || c = '\t' || c = '\n' || c = '\r' || c = '\x0b' || c = '\x0c'

/-- Drop leading and trailing whitespace from a character list. -/
def stripChars (l : List Char) : List Char :=
  ((l.dropWhile isSpaceChar).reverse.dropWhile isSpaceChar).reverse

/-- Python `str.strip()`: the string with surrounding whitespace removed. -/
def pyStrip (s : String) : String := String.mk (stripChars s.data)

/-- One row of the `users` table (the auto-increment id plays no role in any
lookup, so it is omitted): a username and a password, both stored verbatim. -/
structure UserRow where
  username : String
  password : String
deriving DecidableEq

/-- The credential store: the rows of the `users` table in insertion order.
The `UNIQUE` constraint on `username` is reflected in `create_user`, which
refuses to insert a second row with an existing username. -/
abbrev Store := List UserRow

/-- Message returned by `create_user` when a field is empty (src/e.py line 40). -/
def emptyInputMsg : String := "Username and password cannot be empty."

/-- Message returned by `create_user` on the UNIQUE violation (src/e.py line 52). -/
def duplicateUsernameMsg : String := "Username already exists."

/-- Message returned by `create_user` on success (src/e.py line 50). -/
def signupSuccessMsg : String := "Signup successful. Please log in."

/-- Whether the store already holds a row with the given username; this is the
condition under which the SQL INSERT raises `sqlite3.IntegrityError`. -/
def usernameExists (db : Store) (u : String) : Bool :=
  db.any fun r => r.username == u

/-- src/e.py `create_user` (lines 37-54): trims the username, rejects an empty
trimmed username or an empty (untrimmed) password, catches the UNIQUE
violation as a duplicate-username failure, otherwise appends the row.
Returns the `(success, message)` pair together with the updated store. -/
def create_user (db : Store) (username password : String) : (Bool × String) × Store :=
  let u := pyStrip username
  if u = "" ∨ password = "" then ((false, emptyInputMsg), db)
  else if usernameExists db u then ((false, duplicateUsernameMsg), db)
  else ((true, signupSuccessMsg), db ++ [⟨u, password⟩])

/-- src/e.py `validate_user` (lines 57-67): trims the username only, then
looks for a row matching both the trimmed username and the raw password
exactly; returns whether such a row exists. -/
def validate_user (db : Store) (username password : String) : Bool :=
  let u := pyStrip username
  db.any fun r => r.username == u && r.password == password

/-- The result written to `st.session_state.last_prediction` on a successful
prediction (src/e.py lines 252-255): predicted voltage and bill, floats
modelled as rationals. -/
structure Prediction where
  voltage : ℚ
  bill : ℚ
deriving DecidableEq

/-- The per-session mutable state (src/e.py lines 71-76): the logged-in flag,
the current username (`None` when logged out), and the last prediction
result (`None` until a prediction succeeds). -/
structure Session where
  logged_in : Bool
  username : Option String
  last_prediction : Option Prediction
deriving DecidableEq

/-- The initial session state (src/e.py lines 71-76): logged out, no
username, no prediction. -/
def initSession : Session :=
  { logged_in := false, username := none, last_prediction := none }

/-- src/e.py `logout` (lines 79-82): unconditionally resets the flag and
clears the username and the last prediction. -/
def logout (_s : Session) : Session :=
  { logged_in := false, username := none, last_prediction := none }

/-- The login button handler (src/e.py lines 112-119): if `validate_user`
accepts the pair, set the flag and store the trimmed username, leaving the
last prediction untouched; otherwise the session is unchanged (only an
error message is shown). -/
def login_handler (db : Store) (s : Session) (user pwd : String) : Session :=
  if validate_user db user pwd then
    { s with logged_in := true, username := some (pyStrip user) }
  else s

/-- The eleven-field feature record assembled by the prediction block
(src/e.py lines 234-246); all inputs are bounded integers. -/
structure Features where
  fans : ℕ
  lights : ℕ
  fridge : ℕ
  tv : ℕ
  ac : ℕ
  water_heater : ℕ
  washing_machine : ℕ
  microwave : ℕ
  num_family_members : ℕ
  house_size : ℕ
  num_rooms : ℕ

/-- An opaque trained model: a function from a feature record to one number
(the `[0]` element of `model.predict`). -/
abbrev Predictor := Features → ℚ

/-- Failure of the prediction flow. `modelUnavailable` models the exception
raised by `load_models` (src/e.py lines 132-139) when a model artifact is
missing or fails to load: the script run aborts before the prediction block. -/
inductive PredFailure
  | modelUnavailable
deriving DecidableEq

/-- Recording a successful prediction into the session
(src/e.py lines 252-255): only `last_prediction` changes. -/
def recordPrediction (s : Session) (p : Prediction) : Session :=
  { s with last_prediction := some p }

/-- One prediction submission (src/e.py lines 132-139 and 232-255). The
models argument is `none` when `load_models` failed: the run then stops
with the load exception, before any predictor is called and before the
session is touched. Otherwise both predictors run on the feature record and
the result is stored in the session. -/
def predict_step (models : Option (Predictor × Predictor)) (s : Session)
    (f : Features) : Session × Except PredFailure Prediction :=
  match models with
  | none => (s, Except.error PredFailure.modelUnavailable)
  | some (mv, mb) =>
      let pr : Prediction := { voltage := mv f, bill := mb f }
      (recordPrediction s pr, Except.ok pr)

/-- src/e.py line 264: `kwh_estimate = predicted_bill / 7`. -/
def kwh_estimate (bill : ℚ) : ℚ := bill / 7

/-- Modelled from the spec: the usage-category derivation. src/e.py has no
usage-category code (its prediction block only prints fixed guidance text);
the spec defines usageCategory as high if bill > 3000, else medium if
bill > 1500, else low, with strict greater-than thresholds. -/
def usageCategory (bill : ℚ) : String :=
  if bill > 3000 then "high" else if bill > 1500 then "medium" else "low"

/-- The session invariant of the spec: the username is set exactly when the
logged-in flag is true. -/
def SessionInv (s : Session) : Prop := s.username.isSome = s.logged_in

/-- C1: for every username and password pair whose trimmed username is
non-empty and whose password is non-empty, starting from a store not
containing that trimmed username, `create_user` succeeds and a subsequent
`validate_user` with the same pair returns true. -/
theorem C1_create_then_validate (db : Store) (u p : String)
    (hu : pyStrip u ≠ "") (hp : p ≠ "")
    (hfresh : usernameExists db (pyStrip u) = false) :
    (create_user db u p).1 = (true, signupSuccessMsg) ∧
    validate_user (create_user db u p).2 u p = true := by
  simp [create_user, validate_user, hu, hp, hfresh, List.any_append]

/-- Witness for C1 at the concrete pair ("alice", "pw1") on the empty store. -/
theorem C1_witness :
    (create_user [] "alice" "pw1").1 = (true, signupSuccessMsg) ∧
    validate_user (create_user [] "alice" "pw1").2 "alice" "pw1" = true :=
  C1_create_then_validate [] "alice" "pw1" (by decide) (by decide) (by decide)

/-- C2: when the trimmed username is already present in the store, a second
`create_user` call with that username and any non-empty password returns the
duplicate-username failure and returns the store unchanged, so the row count
and every originally stored password are untouched. -/
theorem C2_duplicate_username (db : Store) (u p : String)
    (hu : pyStrip u ≠ "") (hp : p ≠ "")
    (hdup : usernameExists db (pyStrip u) = true) :
    (create_user db u p).1 = (false, duplicateUsernameMsg) ∧
    (create_user db u p).2 = db := by
  simp [create_user, hu, hp, hdup]

/-- Witness for C2: signing up "alice" again with a different password fails
and leaves the single original row, with its original password, in place. -/
theorem C2_witness :
    (create_user [UserRow.mk "alice" "pw1"] "alice" "pw2").1
      = (false, duplicateUsernameMsg) ∧
    (create_user [UserRow.mk "alice" "pw1"] "alice" "pw2").2
      = [UserRow.mk "alice" "pw1"] :=
  C2_duplicate_username [UserRow.mk "alice" "pw1"] "alice" "pw2"
    (by decide) (by decide) (by decide)

/-- C3 counterexample: with the strict greater-than thresholds that the claim
itself states, a bill of exactly 1500.00 is categorised "low", refuting the
claim that bill = 1500.00 yields "medium". -/
theorem C3_counterexample :
    usageCategory 1500 = "low" ∧ usageCategory 1500 ≠ "medium" := by
  have h : usageCategory 1500 = "low" := by norm_num [usageCategory]
  exact ⟨h, by rw [h]; decide⟩

/-- C3 (amended): the usage category uses strict greater-than thresholds —
"high" iff bill > 3000, "medium" iff 1500 < bill ≤ 3000, "low" iff
bill ≤ 1500 — so bill = 1500.00 yields "low", bill = 3000.00 yields
"medium", and bill = 3000.01 yields "high". -/
theorem C3_usage_category_amended :
    (∀ b : ℚ,
      (usageCategory b = "high" ↔ 3000 < b) ∧
      (usageCategory b = "medium" ↔ 1500 < b ∧ b ≤ 3000) ∧
      (usageCategory b = "low" ↔ b ≤ 1500)) ∧
    usageCategory 1500 = "low" ∧ usageCategory 3000 = "medium" ∧
    usageCategory (300001 / 100) = "high" := by
  refine ⟨fun b => ?_, by norm_num [usageCategory], by norm_num [usageCategory],
    by norm_num [usageCategory]⟩
  unfold usageCategory
  split_ifs with h3 h15
  · have h15' : (1500 : ℚ) < b := lt_trans (by norm_num) h3
    simp [h3, h15', not_le.mpr h3, not_le.mpr h15']
  · simp [h3, h15, not_lt.mp h3, not_le.mpr h15]
  · simp [h3, h15, not_lt.mp h15]

/-- Witness for C3 (amended): a bill of 2000 is categorised "medium". -/
theorem C3_witness : usageCategory 2000 = "medium" :=
  ((C3_usage_category_amended.1 2000).2.1).mpr (by norm_num)

/-- C4 counterexample: a whitespace-only password is NOT rejected — only the
username is trimmed, and a non-empty whitespace string is truthy in Python —
so create_user("x", "  ") succeeds and inserts the row, refuting the claim
that it returns the empty-input failure and does not insert. -/
theorem C4_counterexample :
    (create_user [] "x" "  ").1 = (true, signupSuccessMsg) ∧
    (create_user [] "x" "  ").1 ≠ (false, emptyInputMsg) ∧
    (create_user [] "x" "  ").2 = [UserRow.mk "x" "  "] := by
  decide

/-- C4 (amended): `create_user` fails with the empty-input failure exactly
when the trimmed username is empty or the password is the empty string, and
in that case it does not insert; in particular ("", "x"), ("  ", "x") and an
empty password are rejected. A whitespace-only password is accepted. -/
theorem C4_empty_input_amended :
    (∀ (db : Store) (u p : String),
      ((create_user db u p).1 = (false, emptyInputMsg) ↔ pyStrip u = "" ∨ p = "") ∧
      (pyStrip u = "" ∨ p = "" → (create_user db u p).2 = db)) ∧
    (create_user [] "" "x").1 = (false, emptyInputMsg) ∧
    (create_user [] "  " "x").1 = (false, emptyInputMsg) ∧
    (create_user [] "x" "").1 = (false, emptyInputMsg) := by
  refine ⟨fun db u p => ?_, by decide, by decide, by decide⟩
  by_cases h : pyStrip u = "" ∨ p = ""
  · simp [create_user, h]
  · by_cases hd : usernameExists db (pyStrip u) = true
    · simp [create_user, h, hd]
      decide
    · simp [create_user, h, hd]

/-- Witness for C4 (amended): a whitespace-only username leaves the store
unchanged. -/
theorem C4_witness :
    (create_user [UserRow.mk "a" "b"] "  " "x").2 = [UserRow.mk "a" "b"] :=
  (C4_empty_input_amended.1 [UserRow.mk "a" "b"] "  " "x").2 (Or.inl (by decide))

/-- C5: `validate_user` returns true exactly when some stored row matches the
trimmed input username and the untrimmed input password character for
character — string equality, so case-sensitive and exact on the password. -/
theorem C5_validate_exact_match (db : Store) (u p : String) :
    validate_user db u p = true ↔
      ∃ r ∈ db, r.username = pyStrip u ∧ r.password = p := by
  simp [validate_user, List.any_eq_true]

/-- Witness for C5: the stored row ("alice", "pw1") is matched by the input
username " alice " (trimmed) with the exact password. -/
theorem C5_witness :
    validate_user [UserRow.mk "alice" "pw1"] " alice " "pw1" = true :=
  (C5_validate_exact_match [UserRow.mk "alice" "pw1"] " alice " "pw1").mpr
    ⟨UserRow.mk "alice" "pw1", by decide, by decide, by decide⟩

/-- C6: from every session state, `logout` sets the logged-in flag to false
and clears the username and the last prediction. -/
theorem C6_logout_clears (s : Session) :
    (logout s).logged_in = false ∧ (logout s).username = none ∧
    (logout s).last_prediction = none :=
  ⟨rfl, rfl, rfl⟩

/-- C7: the invariant that the username is set iff the logged-in flag is true
holds initially and is preserved by logout, by the login handler, and by
recording a prediction. -/
theorem C7_session_invariant :
    SessionInv initSession ∧
    (∀ s, SessionInv (logout s)) ∧
    (∀ db s u p, SessionInv s → SessionInv (login_handler db s u p)) ∧
    (∀ s pr, SessionInv s → SessionInv (recordPrediction s pr)) := by
  refine ⟨rfl, fun s => rfl, fun db s u p h => ?_, fun s pr h => h⟩
  unfold login_handler
  split
  · rfl
  · exact h

/-- Witness for C7: the invariant holds after a login attempt from the
initial state. -/
theorem C7_witness : SessionInv (login_handler [] initSession "a" "b") :=
  C7_session_invariant.2.2.1 [] initSession "a" "b" rfl

/-- C8: when the models are unavailable, a prediction submission fails with
the model-unavailable failure, produces no result, and leaves the session —
in particular the last prediction — unchanged. -/
theorem C8_model_unavailable (s : Session) (f : Features) :
    (predict_step none s f).1 = s ∧
    (predict_step none s f).1.last_prediction = s.last_prediction ∧
    (predict_step none s f).2 = Except.error PredFailure.modelUnavailable :=
  ⟨rfl, rfl, rfl⟩

/-- C9: the derived usage estimate is the predicted bill divided by exactly
7, and a bill of 1400.0 gives an estimate of 200.0. -/
theorem C9_usage_estimate :
    (∀ b : ℚ, kwh_estimate b = b / 7) ∧ kwh_estimate 1400 = 200 :=
  ⟨fun _ => rfl, by norm_num [kwh_estimate]⟩

/-- C10: on every successful login the session stores the trimmed input
username (and leaves the last prediction untouched), so the stored username
may differ from the raw string typed. -/
theorem C10_login_stores_trimmed (db : Store) (s : Session) (u p : String)
    (h : validate_user db u p = true) :
    (login_handler db s u p).logged_in = true ∧
    (login_handler db s u p).username = some (pyStrip u) ∧
    (login_handler db s u p).last_prediction = s.last_prediction := by
  simp [login_handler, h]

/-- Witness for C10: logging in as " alice " stores "alice", which differs
from the raw input. -/
theorem C10_witness :
    (login_handler [UserRow.mk "alice" "pw1"] initSession " alice " "pw1").username
      = some "alice" ∧ (" alice " : String) ≠ "alice" := by
  have h := C10_login_stores_trimmed [UserRow.mk "alice" "pw1"] initSession
    " alice " "pw1" (by decide)
  exact ⟨by rw [h.2.1]; decide, by decide⟩

end SmartBill
